import Mathlib

attribute [local semireducible] Rat.ofScientific Rat.mul Rat.inv Rat.add Rat.sub

/-!
Verification of the Figma component-analysis engine (`src/server/figmaApi.ts`).

The engine is embedded shallowly: every analysis function of the source file
becomes a Lean definition over a typed model of the dynamic JSON node trees the
code consumes.  JavaScript semantics that matter to the analysed behaviour are
modelled explicitly:

* a missing object field is `none`; reading `.name` / `.type` off a node models
  `node.name` / `node.type` (reading a property of `undefined` throws, so code
  paths that dereference a missing `name` return `Except.error`);
* numbers are modelled as rationals (all arithmetic in the source is exact on
  the inputs it handles: comparisons, `Math.round`, saturation ratios);
* truthiness is modelled where the source relies on it (`0`, `""`, `null` and
  `undefined` are falsy);
* `Array.prototype.some/find/filter/map` evaluate their callback left to right
  and short-circuit exactly as in JS; `Array.prototype.sort` is stable.

Thrown exceptions are modelled with `Except String`; the `try/catch` wrapper of
`analyzeFigmaComponents` re-throws with its prefixed message, exactly as the
source does.
-/

/-- Models `String.prototype.toLowerCase` (ASCII-relevant part used by the source). -/
def toLowerCase (s : String) : String := String.mk (s.toList.map Char.toLower)

/-- Boolean prefix test on character lists. -/
def listIsPrefixOf : List Char → List Char → Bool
  | [], _ => true
  | _ :: _, [] => false
  | a :: as, b :: bs => a == b && listIsPrefixOf as bs

/-- Boolean substring (contiguous infix) test on character lists. -/
def listIsSubstr (pat : List Char) : List Char → Bool
  | [] => listIsPrefixOf pat []
  | l@(_ :: rest) => listIsPrefixOf pat l || listIsSubstr pat rest

/-- Models `String.prototype.includes`: `jsIncludes s pat` is `s.includes(pat)`. -/
def jsIncludes (s pat : String) : Bool := listIsSubstr pat.toList s.toList

/-- Models `Math.round`: rounds half away from zero towards positive infinity. -/
def mathRound (q : ℚ) : ℤ := (q + 1/2).floor

/-- JS whitespace test for `String.prototype.trim` (ASCII part). -/
def isJsWhitespace (c : Char) : Bool := c == ' ' || c == '\t' || c == '\n' || c == '\r'

/-- Models `String.prototype.trim`. -/
def jsTrim (s : String) : String :=
  String.mk (((s.toList.dropWhile isJsWhitespace).reverse.dropWhile isJsWhitespace).reverse)

/-- Case-insensitive match of `pat` at the head of `l`. -/
def matchesAt (pat : List Char) (l : List Char) : Bool :=
  listIsPrefixOf pat (l.map Char.toLower)

/-- Models `name.replace(/option|item/i, '')`: deletes the first, leftmost,
case-insensitive occurrence of `option` (preferred at equal position) or
`item`; the rest of the string is kept unchanged. -/
def replaceOptionItem : List Char → List Char
  | [] => []
  | l@(c :: rest) =>
    if matchesAt "option".toList l then l.drop 6
    else if matchesAt "item".toList l then l.drop 4
    else c :: replaceOptionItem rest

/-- Truthiness of an optional JS number (absent and `0` are falsy). -/
def optTruthyQ : Option ℚ → Bool
  | some q => decide (q ≠ 0)
  | none => false

/-- Models `a || dflt` for an optional JS string (absent and `""` are falsy). -/
def jsOrString (o : Option String) (dflt : String) : String :=
  match o with
  | some s => if s = "" then dflt else s
  | none => dflt

/-- Message of the TypeError raised when reading `.toLowerCase` (or any
property) off a missing `name` field. -/
def nameAccessError : String :=
  "TypeError: Cannot read properties of undefined (reading toLowerCase)"

/-- Message of the TypeError raised when the tree walker dereferences a
missing document. -/
def documentAccessError : String :=
  "TypeError: Cannot read properties of undefined (reading type)"

/-- A loosely typed JS value as stored in a property bag. -/
inductive JsValue : Type where
  | vNull : JsValue
  | vUndefined : JsValue
  | vStr (s : String) : JsValue
  | vBool (b : Bool) : JsValue
  | vList (xs : List JsValue) : JsValue

/-- JS truthiness of a `JsValue` (arrays are always truthy). -/
def jsTruthy : JsValue → Bool
  | .vNull => false
  | .vUndefined => false
  | .vStr s => !(s == "")
  | .vBool b => b
  | .vList _ => true

/-- Models `a || b` on JS values. -/
def jsOrValue (a b : JsValue) : JsValue := if jsTruthy a then a else b

/-- An `{r, g, b, a?}` color object with unit-interval channels. -/
structure RawColor where
  r : ℚ
  g : ℚ
  b : ℚ
  a : Option ℚ := none
  deriving Repr, DecidableEq

/-- One entry of a `fills` / `strokes` array. -/
structure Paint where
  visible : Option Bool := none
  opacity : Option ℚ := none
  color : Option RawColor := none
  deriving Repr, DecidableEq

/-- The `{x, y}` offset of a shadow effect. -/
structure EffectOffset where
  x : Option ℚ := none
  y : Option ℚ := none
  deriving Repr, DecidableEq

/-- One entry of an `effects` array. -/
structure Effect where
  type : Option String := none
  visible : Option Bool := none
  offset : Option EffectOffset := none
  radius : Option ℚ := none
  color : Option RawColor := none
  deriving Repr, DecidableEq

/-- An `absoluteBoundingBox` object. -/
structure BoundingBox where
  width : Option ℚ := none
  height : Option ℚ := none
  deriving Repr, DecidableEq

/-- A `style` sub-record of a text node. -/
structure TextStyle where
  fontSize : Option ℚ := none
  fontWeight : Option ℚ := none
  lineHeight : Option ℚ := none
  letterSpacing : Option ℚ := none
  textAlignHorizontal : Option String := none
  deriving Repr, DecidableEq

/-- The non-recursive fields of a Figma document node; every field is
optional, mirroring the dynamic JSON input. -/
structure NodeFields where
  id : Option String := none
  name : Option String := none
  type : Option String := none
  componentId : Option String := none
  characters : Option String := none
  opacity : Option ℚ := none
  cornerRadius : Option ℚ := none
  x : Option ℚ := none
  y : Option ℚ := none
  width : Option ℚ := none
  height : Option ℚ := none
  paddingLeft : Option ℚ := none
  paddingRight : Option ℚ := none
  paddingTop : Option ℚ := none
  paddingBottom : Option ℚ := none
  absoluteBoundingBox : Option BoundingBox := none
  fills : Option (List Paint) := none
  strokes : Option (List Paint) := none
  effects : Option (List Effect) := none
  style : Option TextStyle := none
  deriving Repr, DecidableEq

/-- A Figma document node: scalar fields plus an optional `children` array
(`none` models an absent field, `some []` an empty array). -/
inductive FigmaNode : Type where
  | mk (fields : NodeFields) (children : Option (List FigmaNode))

/-- Scalar fields of a node. -/
def FigmaNode.fields : FigmaNode → NodeFields
  | .mk f _ => f

/-- The optional `children` array of a node. -/
def FigmaNode.children : FigmaNode → Option (List FigmaNode)
  | .mk _ c => c

/-- The object handed to `analyzeFigmaComponents` (shape of the mock Figma
API response: `id`, `name`, `document`). -/
structure FigmaData where
  id : Option String := none
  name : Option String := none
  document : Option FigmaNode := none

/-- Monadic `Array.prototype.some`: evaluates the callback left to right,
stops at the first `true`, propagates a thrown exception. -/
def jsSomeM {α : Type} (p : α → Except String Bool) : List α → Except String Bool
  | [] => .ok false
  | x :: xs => do
    let b ← p x
    if b then .ok true else jsSomeM p xs

/-- Monadic `Array.prototype.find`. -/
def jsFindM {α : Type} (p : α → Except String Bool) : List α → Except String (Option α)
  | [] => .ok none
  | x :: xs => do
    let b ← p x
    if b then .ok (some x) else jsFindM p xs

/-- Monadic `Array.prototype.filter` (callback runs on every element). -/
def jsFilterM {α : Type} (p : α → Except String Bool) : List α → Except String (List α)
  | [] => .ok []
  | x :: xs => do
    let b ← p x
    let rest ← jsFilterM p xs
    .ok (if b then x :: rest else rest)

/-- Monadic `Array.prototype.map`. -/
def jsMapM {α β : Type} (f : α → Except String β) : List α → Except String (List β)
  | [] => .ok []
  | x :: xs => do
    let y ← f x
    let ys ← jsMapM f xs
    .ok (y :: ys)

/-- Insert into a sorted list, keeping earlier elements first among equals. -/
def insertLe {α : Type} (le : α → α → Bool) (x : α) : List α → List α
  | [] => [x]
  | y :: ys => if le x y then x :: y :: ys else y :: insertLe le x ys

/-- Stable insertion sort; models `Array.prototype.sort` with a consistent
comparator (stable since ES2019). -/
def stableSortBy {α : Type} (le : α → α → Bool) : List α → List α
  | [] => []
  | x :: xs => insertLe le x (stableSortBy le xs)

/-- Models `BUTTON_VARIANTS` catalog (figmaApi.ts lines 6-12). -/
def BUTTON_VARIANTS : List (String × String) :=
  [("primary", "raised"), ("secondary", "stroked"), ("text", "basic"),
   ("icon", "icon"), ("flat", "flat")]

/-- Models `INPUT_APPEARANCES` catalog (figmaApi.ts lines 15-19). -/
def INPUT_APPEARANCES : List (String × String) :=
  [("outline", "outline"), ("standard", "standard"), ("fill", "fill")]

/-- Models `COMPONENT_TYPE_IDS` catalog (figmaApi.ts lines 22-32). -/
def COMPONENT_TYPE_IDS : List (String × List String) :=
  [("Button", ["button-primary", "button-secondary", "button-flat", "button-icon"]),
   ("Input", ["input-standard", "input-outline", "input-fill", "text-field"]),
   ("Card", ["card-standard", "card-elevated", "card-outlined"]),
   ("Checkbox", ["checkbox-standard", "checkbox-indeterminate"]),
   ("Radio", ["radio-button", "radio-option"]),
   ("Select", ["select-standard", "dropdown", "combobox"]),
   ("DatePicker", ["date-picker", "calendar-input"]),
   ("Tabs", ["tabs-standard", "tab-bar"]),
   ("Table", ["table-standard", "data-table"])]

/-- The ten-keyword disjunction of `isComponentCandidate`'s FRAME branch
(figmaApi.ts lines 361-372), on an already lowercased name. -/
def containsComponentKeyword (s : String) : Bool :=
  jsIncludes s "button" ||
  jsIncludes s "input" ||
  jsIncludes s "field" ||
  jsIncludes s "card" ||
  jsIncludes s "checkbox" ||
  jsIncludes s "select" ||
  jsIncludes s "date" ||
  jsIncludes s "table" ||
  jsIncludes s "tab" ||
  jsIncludes s "carousel"

/-- Models `isComponentCandidate` (figmaApi.ts lines 352-376).  `COMPONENT` and
`INSTANCE` nodes are always candidates; `FRAME` nodes are candidates when
their lowercased name contains one of the keywords (reading the name of a
FRAME node throws when the field is missing); every other node - including
`GROUP` nodes - falls through to `false`. -/
def isComponentCandidate (node : FigmaNode) : Except String Bool :=
  if node.fields.type == some "COMPONENT" || node.fields.type == some "INSTANCE" then
    .ok true
  else if node.fields.type == some "FRAME" then
    match node.fields.name with
    | none => .error nameAccessError
    | some nm => .ok (containsComponentKeyword (toLowerCase nm))
  else
    .ok false

/-- The `componentId` catalog lookup of `detectComponentType` (figmaApi.ts
lines 385-391): skipped when the id is absent or empty (falsy), otherwise the
first catalog entry whose id list contains the id wins. -/
def detectFromId (node : FigmaNode) : Option String :=
  match node.fields.componentId with
  | some cid =>
    if cid = "" then none
    else (COMPONENT_TYPE_IDS.find? (fun p => p.2.contains cid)).map (fun p => p.1)
  | none => none

/-- The name-pattern chain of `detectComponentType` (figmaApi.ts lines
394-428), on the lowercased name, in source order; `none` when no pattern
matches. -/
def detectFromName (nameLower : String) : Option String :=
  if jsIncludes nameLower "button" then some "Button"
  else if jsIncludes nameLower "input" || jsIncludes nameLower "field" ||
      jsIncludes nameLower "text field" then some "Input"
  else if jsIncludes nameLower "card" then some "Card"
  else if jsIncludes nameLower "check" || jsIncludes nameLower "checkbox" then some "Checkbox"
  else if jsIncludes nameLower "select" || jsIncludes nameLower "dropdown" ||
      jsIncludes nameLower "combo" then some "Select"
  else if jsIncludes nameLower "date" || jsIncludes nameLower "calendar" then some "DatePicker"
  else if jsIncludes nameLower "tab" && !jsIncludes nameLower "table" then some "Tabs"
  else if jsIncludes nameLower "table" || jsIncludes nameLower "data table" then some "Table"
  else if jsIncludes nameLower "carousel" || jsIncludes nameLower "slider" then some "Carousel"
  else none

/-- Models `hasButtonLikeStructure` (figmaApi.ts lines 450-460).  The source reads
`node.name` unconditionally while computing `isClickable`, so a missing name
throws. -/
def hasButtonLikeStructure (node : FigmaNode) : Except String Bool :=
  match node.fields.name with
  | none => .error nameAccessError
  | some nm =>
    let hasButtonShape : Bool :=
      match node.fields.cornerRadius with
      | some cr => decide (0 < cr)
      | none => false
    let isClickable : Bool :=
      jsIncludes (toLowerCase nm) "click" || jsIncludes (toLowerCase nm) "action"
    let hasLimitedSize : Bool :=
      match node.fields.absoluteBoundingBox with
      | some box =>
        (match box.width with | some w => decide (w < 300) | none => false) &&
        (match box.height with | some h => decide (h < 100) | none => false)
      | none => false
    .ok (hasButtonShape && (isClickable || hasLimitedSize))

/-- Models `hasInputFieldStructure` (figmaApi.ts lines 465-481).  Both `some`
callbacks read the name of certain children (TEXT children for the label
test, FRAME children for the input-area test). -/
def hasInputFieldStructure (node : FigmaNode) : Except String Bool :=
  match node.children with
  | none => .ok false
  | some children => do
    let hasLabel ← jsSomeM (fun child =>
        if child.fields.type == some "TEXT" then
          match child.fields.name with
          | none => .error nameAccessError
          | some cnm =>
            .ok (jsIncludes (toLowerCase cnm) "label" ||
              (match child.fields.characters with
               | some cs => decide (cs.length < 30)
               | none => false))
        else .ok false) children
    let hasInputArea ← jsSomeM (fun child =>
        if child.fields.type == some "RECTANGLE" then .ok true
        else if child.fields.type == some "FRAME" then
          match child.fields.name with
          | none => .error nameAccessError
          | some cnm => .ok (jsIncludes (toLowerCase cnm) "input")
        else .ok false) children
    .ok (hasLabel && hasInputArea)

/-- Models `hasCardStructure` (figmaApi.ts lines 486-500); reads no names, total. -/
def hasCardStructure (node : FigmaNode) : Bool :=
  if !(node.fields.type == some "FRAME" || node.fields.type == some "GROUP") then false
  else
    let hasElevation : Bool :=
      match node.fields.effects with
      | some effs => effs.any (fun e => e.type == some "DROP_SHADOW" && !(e.visible == some false))
      | none => false
    let hasCardContent : Bool :=
      match node.children with
      | some children =>
        decide (1 < children.length) && children.any (fun c => c.fields.type == some "TEXT")
      | none => false
    hasElevation && hasCardContent

/-- Models `detectComponentType` (figmaApi.ts lines 381-445): reads the lowercased
name first (throws when missing), then the componentId catalog, then the name
patterns in order, then the structural fallbacks, then `Custom`. -/
def detectComponentType (node : FigmaNode) : Except String String :=
  match node.fields.name with
  | none => .error nameAccessError
  | some nm =>
    let nameLower := toLowerCase nm
    match detectFromId node with
    | some t => .ok t
    | none =>
      match detectFromName nameLower with
      | some t => .ok t
      | none => do
        let isButtonLike ← hasButtonLikeStructure node
        if isButtonLike then .ok "Button"
        else do
          let isInputLike ← hasInputFieldStructure node
          if isInputLike then .ok "Input"
          else if hasCardStructure node then .ok "Card"
          else .ok "Custom"

/-- Models `determineButtonVariant` (figmaApi.ts lines 581-626).  The componentId
loop runs before the name is read, so a matching id short-circuits even a
missing name. -/
def determineButtonVariant (node : FigmaNode) : Except String String :=
  let fromId : Option String :=
    match node.fields.componentId with
    | some cid =>
      if cid = "" then none
      else (BUTTON_VARIANTS.find? (fun p => jsIncludes cid p.1)).map (fun p => p.2)
    | none => none
  match fromId with
  | some v => .ok v
  | none =>
    match node.fields.name with
    | none => .error nameAccessError
    | some nm =>
      let nameLower := toLowerCase nm
      match (BUTTON_VARIANTS.find? (fun p => jsIncludes nameLower p.1)).map (fun p => p.2) with
      | some v => .ok v
      | none =>
        if (node.fields.effects.getD []).any
            (fun e => e.type == some "DROP_SHADOW" && !(e.visible == some false)) then
          .ok "raised"
        else
          let hasFill : Bool := (node.fields.fills.getD []).any
            (fun f => !(f.visible == some false) &&
              (match f.opacity with | some o => decide (0 < o) | none => false))
          let hasStroke : Bool := (node.fields.strokes.getD []).any
            (fun s => !(s.visible == some false))
          if hasStroke && (!hasFill || (node.fields.fills.getD []).all
              (fun f => match f.opacity with | some o => decide (o < (0.2 : ℚ)) | none => false)) then
            .ok "stroked"
          else if hasFill then .ok "flat"
          else .ok "basic"

/-- Models `determineColorTheme` (figmaApi.ts lines 631-671). -/
def determineColorTheme (node : FigmaNode) : Except String String :=
  match node.fields.name with
  | none => .error nameAccessError
  | some nm =>
    let nameLower := toLowerCase nm
    if jsIncludes nameLower "primary" then .ok "primary"
    else if jsIncludes nameLower "accent" || jsIncludes nameLower "secondary" then .ok "accent"
    else if jsIncludes nameLower "warn" || jsIncludes nameLower "danger" ||
        jsIncludes nameLower "error" then .ok "warn"
    else
      match node.fields.fills with
      | some fills =>
        if fills.length > 0 then
          match fills.find? (fun f => !(f.visible == some false) &&
              (match f.opacity with | some o => decide (0 < o) | none => false)) with
          | some fill =>
            match fill.color with
            | some c =>
              if (0.7 : ℚ) < c.r ∧ c.g < (0.3 : ℚ) ∧ c.b < (0.3 : ℚ) then .ok "warn"
              else if c.r < (0.3 : ℚ) ∧ c.g < (0.5 : ℚ) ∧ (0.7 : ℚ) < c.b then .ok "primary"
              else if (0.7 : ℚ) < c.r ∧ (0.5 : ℚ) < c.g ∧ c.b < (0.3 : ℚ) then .ok "accent"
              else .ok "primary"
            | none => .ok "primary"
          | none => .ok "primary"
        else .ok "primary"
      | none => .ok "primary"

/-- Saturation as computed by `isNodeDisabled`:
`(max(r,g,b) - min(r,g,b)) / max(r,g,b)`, taken as `0` when the max is `0`. -/
def saturationOf (c : RawColor) : ℚ :=
  let mx := max c.r (max c.g c.b)
  let mn := min c.r (min c.g c.b)
  if mx = 0 then 0 else (mx - mn) / mx

/-- Models `isNodeDisabled` (figmaApi.ts lines 676-704).  Note the truthiness guard
`node.opacity && node.opacity < 0.5`: an opacity of exactly `0` is falsy and
does not trigger the opacity test. -/
def isNodeDisabled (node : FigmaNode) : Except String Bool :=
  match node.fields.name with
  | none => .error nameAccessError
  | some nm =>
    if jsIncludes (toLowerCase nm) "disabled" then .ok true
    else if (match node.fields.opacity with
             | some o => decide (o ≠ 0) && decide (o < (0.5 : ℚ))
             | none => false) then .ok true
    else
      match node.fields.fills with
      | some fills =>
        if fills.length > 0 then
          match fills.find? (fun f => !(f.visible == some false)) with
          | some fill =>
            match fill.color with
            | some c => .ok (decide (saturationOf c < (0.1 : ℚ)))
            | none => .ok false
          | none => .ok false
        else .ok false
      | none => .ok false

/-- Models `hasChildIcon` (figmaApi.ts lines 709-717); reads each non-VECTOR
child's name. -/
def hasChildIcon (node : FigmaNode) : Except String Bool :=
  match node.children with
  | none => .ok false
  | some children => jsSomeM (fun child =>
      if child.fields.type == some "VECTOR" then .ok true
      else
        match child.fields.name with
        | none => .error nameAccessError
        | some cnm =>
          if jsIncludes (toLowerCase cnm) "icon" then .ok true
          else .ok (match child.fields.width, child.fields.height with
            | some w, some h =>
              decide (w ≠ 0) && decide (h ≠ 0) && decide (w = h) && decide (w < 24)
            | _, _ => false)) children

/-- Models `determineInputAppearance` (figmaApi.ts lines 722-758). -/
def determineInputAppearance (node : FigmaNode) : Except String String :=
  let fromId : Option String :=
    match node.fields.componentId with
    | some cid =>
      if cid = "" then none
      else (INPUT_APPEARANCES.find? (fun p => jsIncludes cid p.1)).map (fun p => p.2)
    | none => none
  match fromId with
  | some v => .ok v
  | none =>
    match node.fields.name with
    | none => .error nameAccessError
    | some nm =>
      let nameLower := toLowerCase nm
      match (INPUT_APPEARANCES.find? (fun p => jsIncludes nameLower p.1)).map (fun p => p.2) with
      | some v => .ok v
      | none =>
        let hasStroke : Bool := (node.fields.strokes.getD []).any
          (fun s => !(s.visible == some false))
        if hasStroke then .ok "outline"
        else
          let hasFill : Bool := (node.fields.fills.getD []).any
            (fun f => !(f.visible == some false) &&
              (match f.opacity with | some o => decide (0 < o) | none => false))
          if hasFill then .ok "fill"
          else .ok "standard"

/-- Sort key `a.style?.fontSize || 0` of the title comparator. -/
def fontSizeKey (n : FigmaNode) : ℚ := (n.fields.style.bind TextStyle.fontSize).getD 0

/-- Sort key `a.style?.fontWeight || 0` of the title comparator. -/
def fontWeightKey (n : FigmaNode) : ℚ := (n.fields.style.bind TextStyle.fontWeight).getD 0

/-- Holds when `a` sorts no later than `b` under the title comparator of
`extractTextContent` (font size descending, then font weight descending). -/
def titleLe (a b : FigmaNode) : Bool :=
  if fontSizeKey a = fontSizeKey b then decide (fontWeightKey b ≤ fontWeightKey a)
  else decide (fontSizeKey b ≤ fontSizeKey a)

/-- Sort key `c.characters?.length || 0` of the content comparator. -/
def charLenKey (n : FigmaNode) : ℕ := (n.fields.characters.getD "").length

/-- Holds when `a` sorts no later than `b` under the content comparator of
`extractTextContent` (text length descending). -/
def contentLe (a b : FigmaNode) : Bool := decide (charLenKey b ≤ charLenKey a)

/-- The JS value of `characters` returned by `extractTextContent`'s fallback
branches (`sorted[0].characters` may be `undefined`). -/
def charactersValue (n : FigmaNode) : JsValue :=
  match n.fields.characters with
  | some cs => .vStr cs
  | none => .vUndefined

/-- Models `extractTextContent` (figmaApi.ts lines 763-824).  Returns the JS value
the source returns: a string, `null` when nothing matches, or `undefined`
when a fallback branch returns a text node without `characters`. -/
def extractTextContent (node : FigmaNode) (purpose : String) : Except String JsValue :=
  match node.children with
  | none => .ok .vNull
  | some children => do
    let textByName ← jsFindM (fun child =>
        if child.fields.type == some "TEXT" then
          match child.fields.name with
          | none => .error nameAccessError
          | some cnm => .ok (jsIncludes (toLowerCase cnm) (toLowerCase purpose))
        else .ok false) children
    let byName : Option String :=
      match textByName with
      | some t =>
        match t.fields.characters with
        | some cs => if cs = "" then none else some cs
        | none => none
      | none => none
    match byName with
    | some cs => .ok (.vStr cs)
    | none =>
      if purpose == "title" || purpose == "heading" then
        let textNodes := children.filter (fun c => c.fields.type == some "TEXT")
        match stableSortBy titleLe textNodes with
        | t :: _ => .ok (charactersValue t)
        | [] => .ok .vNull
      else if purpose == "label" then
        let textNodes := children.filter (fun c =>
          c.fields.type == some "TEXT" &&
          ((match c.fields.y, node.fields.height with
            | some cy, some h => decide (cy < h * (0.3 : ℚ))
            | _, _ => false) ||
           (match c.fields.x, node.fields.width with
            | some cx, some w => decide (cx < w * (0.2 : ℚ))
            | _, _ => false)))
        match textNodes with
        | t :: _ => .ok (charactersValue t)
        | [] => .ok .vNull
      else if purpose == "content" then
        let textNodes := children.filter (fun c => c.fields.type == some "TEXT")
        match stableSortBy contentLe textNodes with
        | t :: _ => .ok (charactersValue t)
        | [] => .ok .vNull
      else .ok .vNull

/-- Models `isInputRequired` (figmaApi.ts lines 829-845). -/
def isInputRequired (node : FigmaNode) : Except String Bool :=
  match node.fields.name with
  | none => .error nameAccessError
  | some nm =>
    if jsIncludes (toLowerCase nm) "required" then .ok true
    else
      match node.children with
      | some children => jsSomeM (fun child =>
          if child.fields.type == some "TEXT" &&
              (match child.fields.characters with
               | some cs => jsIncludes cs "*"
               | none => false) then .ok true
          else
            match child.fields.name with
            | none => .error nameAccessError
            | some cnm =>
              .ok (jsIncludes (toLowerCase cnm) "required" ||
                jsIncludes (toLowerCase cnm) "asterisk")) children
      | none => .ok false

/-- Models `hasActionButtons` (figmaApi.ts lines 850-870). -/
def hasActionButtons (node : FigmaNode) : Except String Bool :=
  match node.children with
  | none => .ok false
  | some children => do
    let actionsFrame ← jsFindM (fun child =>
        if child.fields.type == some "FRAME" || child.fields.type == some "GROUP" then
          match child.fields.name with
          | none => .error nameAccessError
          | some cnm =>
            .ok (jsIncludes (toLowerCase cnm) "action" || jsIncludes (toLowerCase cnm) "button")
        else .ok false) children
    match actionsFrame with
    | some _ => .ok true
    | none => jsSomeM (fun child =>
        if child.fields.type == some "INSTANCE" then
          if (match child.fields.componentId with
              | some cid => jsIncludes cid "button"
              | none => false) then .ok true
          else
            match child.fields.name with
            | none => .error nameAccessError
            | some cnm => .ok (jsIncludes (toLowerCase cnm) "button")
        else .ok false) children

/-- The per-option mapping of `extractSelectOptions` when an option node has
no truthy `characters`: first TEXT child's text if one exists, otherwise the
option's name with the first `option`/`item` occurrence stripped and
trimmed. -/
def selectOptionFallback (opt : FigmaNode) : Except String JsValue :=
  let hasTextChild : Bool :=
    match opt.children with
    | some ocs => ocs.any (fun c => c.fields.type == some "TEXT")
    | none => false
  if hasTextChild then
    match (opt.children.getD []).find? (fun c => c.fields.type == some "TEXT") with
    | some t => .ok (charactersValue t)
    | none => .ok .vUndefined
  else
    match opt.fields.name with
    | none => .error nameAccessError
    | some onm => .ok (.vStr (jsTrim (String.mk (replaceOptionItem onm.toList))))

/-- Models `extractSelectOptions` (figmaApi.ts lines 875-898): `none` models the
source's `null` result (no children, or no child named option/item). -/
def extractSelectOptions (node : FigmaNode) : Except String (Option (List JsValue)) :=
  match node.children with
  | none => .ok none
  | some children => do
    let optionNodes ← jsFilterM (fun child =>
        match child.fields.name with
        | none => .error nameAccessError
        | some cnm =>
          .ok (jsIncludes (toLowerCase cnm) "option" || jsIncludes (toLowerCase cnm) "item"))
      children
    if optionNodes.length > 0 then
      let vals ← jsMapM (fun opt =>
          match opt.fields.characters with
          | some cs => if cs = "" then selectOptionFallback opt else .ok (.vStr cs)
          | none => selectOptionFallback opt) optionNodes
      .ok (some vals)
    else .ok none

/-- Models `extractComponentProperties` (figmaApi.ts lines 505-576).  The bag is the
ordered list of `properties.key = value` assignments; every branch assigns
its keys unconditionally (the extracted value may be `null`/`undefined`),
except Card's `subtitle` which is added only when truthy. -/
def extractComponentProperties (node : FigmaNode) (componentType : String) :
    Except String (List (String × JsValue)) :=
  if componentType == "Button" then do
    let variant ← determineButtonVariant node
    let color ← determineColorTheme node
    let disabled ← isNodeDisabled node
    let icon ← hasChildIcon node
    .ok [("variant", .vStr variant), ("color", .vStr color),
         ("disabled", .vBool disabled), ("icon", .vBool icon)]
  else if componentType == "Input" then do
    let appearance ← determineInputAppearance node
    let label ← extractTextContent node "label"
    let ph ← extractTextContent node "placeholder"
    let placeholder ←
      if jsTruthy ph then pure ph else extractTextContent node "hint"
    let required ← isInputRequired node
    .ok [("appearance", .vStr appearance), ("label", label),
         ("placeholder", placeholder), ("required", .vBool required)]
  else if componentType == "Card" then do
    let title ← extractTextContent node "title"
    let subtitle ← extractTextContent node "subtitle"
    let content ← extractTextContent node "content"
    let actions ← hasActionButtons node
    .ok ([("title", title)] ++
         (if jsTruthy subtitle then [("subtitle", subtitle)] else []) ++
         [("content", content), ("actions", .vBool actions)])
  else if componentType == "DatePicker" then do
    let label ← extractTextContent node "label"
    let appearance ← determineInputAppearance node
    .ok [("label", jsOrValue label (.vStr "Choose a date")),
         ("appearance", .vStr appearance)]
  else if componentType == "Select" then do
    let label ← extractTextContent node "label"
    let appearance ← determineInputAppearance node
    let options ← extractSelectOptions node
    .ok [("label", jsOrValue label (.vStr "Select an option")),
         ("appearance", .vStr appearance),
         ("options", match options with | some xs => .vList xs | none => .vNull)]
  else
    .ok []

/-- An `{r, g, b}` color with 0-255 integer channels. -/
structure RGB where
  r : ℤ
  g : ℤ
  b : ℤ
  deriving Repr, DecidableEq

/-- The `boxShadow.color` record (`{r, g, b, a}`). -/
structure ShadowColor where
  r : ℤ
  g : ℤ
  b : ℤ
  a : ℚ
  deriving Repr, DecidableEq

/-- The `boxShadow` style record. -/
structure Shadow where
  offsetX : ℚ
  offsetY : ℚ
  radius : ℚ
  color : ShadowColor
  deriving Repr, DecidableEq

/-- The `padding` style record. -/
structure Padding where
  left : ℚ
  right : ℚ
  top : ℚ
  bottom : ℚ
  deriving Repr, DecidableEq

/-- The `typography` style record. -/
structure Typography where
  fontSize : Option ℚ
  fontWeight : Option ℚ
  lineHeight : Option ℚ
  letterSpacing : Option ℚ
  textAlign : Option String
  deriving Repr, DecidableEq

/-- The style bag of one component; `none` models an absent key. -/
structure Styles where
  width : Option ℚ := none
  height : Option ℚ := none
  borderRadius : Option ℚ := none
  padding : Option Padding := none
  typography : Option Typography := none
  backgroundColor : Option RGB := none
  borderColor : Option RGB := none
  boxShadow : Option Shadow := none
  deriving Repr, DecidableEq

/-- Models `extractComponentStyles` (figmaApi.ts lines 903-987); total, reads no
names.  Truthiness guards: a zero width/height/cornerRadius/padding side is
falsy and does not emit (or count towards) its key. -/
def extractComponentStyles (node : FigmaNode) : Styles :=
  let width : Option ℚ :=
    match node.fields.absoluteBoundingBox with
    | some box => match box.width with
      | some w => if w = 0 then none else some w
      | none => none
    | none => none
  let height : Option ℚ :=
    match node.fields.absoluteBoundingBox with
    | some box => match box.height with
      | some h => if h = 0 then none else some h
      | none => none
    | none => none
  let borderRadius : Option ℚ :=
    match node.fields.cornerRadius with
    | some cr => if cr = 0 then none else some cr
    | none => none
  let padding : Option Padding :=
    if optTruthyQ node.fields.paddingLeft || optTruthyQ node.fields.paddingRight ||
        optTruthyQ node.fields.paddingTop || optTruthyQ node.fields.paddingBottom then
      some ⟨node.fields.paddingLeft.getD 0, node.fields.paddingRight.getD 0,
            node.fields.paddingTop.getD 0, node.fields.paddingBottom.getD 0⟩
    else none
  let typography : Option Typography :=
    match node.fields.style with
    | some st => some ⟨st.fontSize, st.fontWeight, st.lineHeight, st.letterSpacing,
                       st.textAlignHorizontal⟩
    | none => none
  let backgroundColor : Option RGB :=
    match node.fields.fills with
    | some fills =>
      if fills.length > 0 then
        match fills.find? (fun f => !(f.visible == some false)) with
        | some f =>
          match f.color with
          | some c => some ⟨mathRound (c.r * 255), mathRound (c.g * 255), mathRound (c.b * 255)⟩
          | none => none
        | none => none
      else none
    | none => none
  let borderColor : Option RGB :=
    match node.fields.strokes with
    | some strokes =>
      if strokes.length > 0 then
        match strokes.find? (fun s => !(s.visible == some false)) with
        | some s =>
          match s.color with
          | some c => some ⟨mathRound (c.r * 255), mathRound (c.g * 255), mathRound (c.b * 255)⟩
          | none => none
        | none => none
      else none
    | none => none
  let boxShadow : Option Shadow :=
    match node.fields.effects with
    | some effs =>
      if effs.length > 0 then
        match effs.find? (fun e => e.type == some "DROP_SHADOW" && !(e.visible == some false)) with
        | some se =>
          some ⟨((se.offset.bind EffectOffset.x).getD 0),
                ((se.offset.bind EffectOffset.y).getD 0),
                se.radius.getD 0,
                match se.color with
                | some c =>
                  ⟨mathRound (c.r * 255), mathRound (c.g * 255), mathRound (c.b * 255),
                   match c.a with
                   | some aq => if aq = 0 then 1 else aq
                   | none => 1⟩
                | none => ⟨0, 0, 0, 0.25⟩⟩
        | none => none
      else none
    | none => none
  { width, height, borderRadius, padding, typography, backgroundColor, borderColor, boxShadow }

/-- Models `determineComponentSupportStatus`'s `fullySupported` list (figmaApi.ts
lines 994-1000). -/
def fullySupportedTypes : List String := ["Button", "Input", "Card", "Checkbox", "Radio"]

/-- Models `determineComponentSupportStatus`'s `partiallySupported` list (figmaApi.ts
lines 1003-1008). -/
def partiallySupportedTypes : List String := ["Select", "DatePicker", "Tabs", "Table"]

/-- Models `determineComponentSupportStatus` (figmaApi.ts lines 992-1017). -/
def determineComponentSupportStatus (componentType : String) : String :=
  if fullySupportedTypes.contains componentType then "supported"
  else if partiallySupportedTypes.contains componentType then "partial"
  else "unsupported"

/-- Models `mapToAngularMaterialComponent` (figmaApi.ts lines 1022-1036). -/
def mapToAngularMaterialComponent (componentType : String) : Option String :=
  ([("Button", "mat-button"), ("Input", "mat-form-field"), ("Card", "mat-card"),
    ("Checkbox", "mat-checkbox"), ("Radio", "mat-radio"), ("Select", "mat-select"),
    ("DatePicker", "mat-datepicker"), ("Tabs", "mat-tabs"), ("Table", "mat-table")]
    : List (String × String)).lookup componentType

/-- One entry of the `components` output array (`FigmaComponent` of the
shared schema: figmaId, name, type, angularComponent, supportStatus,
properties, styles). -/
structure FigmaComponent where
  figmaId : Option String
  name : Option String
  type : String
  angularComponent : Option String
  supportStatus : String
  properties : List (String × JsValue)
  styles : Styles

/-- The record pushed onto `components` for one candidate node
(figmaApi.ts lines 320-335). -/
def buildComponent (node : FigmaNode) : Except String FigmaComponent := do
  let componentType ← detectComponentType node
  let componentProps ← extractComponentProperties node componentType
  let styles := extractComponentStyles node
  let supportStatus := determineComponentSupportStatus componentType
  let angularComponent := mapToAngularMaterialComponent componentType
  .ok { figmaId := node.fields.id, name := node.fields.name, type := componentType,
        angularComponent := angularComponent, supportStatus := supportStatus,
        properties := componentProps, styles := styles }

mutual

/-- Models `traverseFigmaNodes` (figmaApi.ts lines 318-347).  The `components` array
is passed by reference in JS, so appends accumulate across the recursion and
the final array is returned here.  `frameCount`, in contrast, is a number
passed by value: the `frameCount++` on FRAME/GROUP nodes increments a local
copy that never flows back to the caller (the function returns void), which
is modelled by threading the incremented copy into the children only. -/
def traverseFigmaNodes (node : FigmaNode) (components : List FigmaComponent)
    (frameCount : ℕ) : Except String (List FigmaComponent) := do
  let isCand ← isComponentCandidate node
  let comps ←
    if isCand then do
      let c ← buildComponent node
      pure (components ++ [c])
    else
      pure components
  let fc : ℕ :=
    if node.fields.type == some "FRAME" || node.fields.type == some "GROUP" then
      frameCount + 1
    else frameCount
  match node with
  | .mk _ (some cs) => traverseNodeList cs comps fc
  | .mk _ none => pure comps

/-- Models `node.children.forEach(child => traverseFigmaNodes(child, components,
frameCount))`: each child receives the same array reference and the parent's
(copied) frame count. -/
def traverseNodeList (nodes : List FigmaNode) (components : List FigmaComponent)
    (frameCount : ℕ) : Except String (List FigmaComponent) :=
  match nodes with
  | [] => pure components
  | c :: rest => do
    let comps2 ← traverseFigmaNodes c components frameCount
    traverseNodeList rest comps2 frameCount

end

/-- The `stats` record of the analysis result.  The source's `partial` field
is named `partialCount` here (`partial` is reserved in Lean). -/
structure DesignStats where
  totalComponents : ℕ
  frames : ℕ
  supported : ℕ
  partialCount : ℕ
  unsupported : ℕ
  deriving Repr, DecidableEq

/-- The `FigmaFileResponse` returned by `analyzeFigmaComponents`. -/
structure FigmaFileResponse where
  fileKey : String
  fileName : String
  components : List FigmaComponent
  stats : DesignStats

/-- Models `analyzeFigmaComponents` (figmaApi.ts lines 276-313).  The local
`frameCount` starts at `0` and is passed to `traverseFigmaNodes` by value, so
its value when the stats are assembled is still `0`.  The `catch` block
re-throws every error with the `Failed to analyze Figma components: `
prefix. -/
def analyzeFigmaComponents (figmaData : FigmaData) : Except String FigmaFileResponse :=
  let inner : Except String FigmaFileResponse := do
    let fileKey := jsOrString figmaData.id "figma-file-1"
    let fileName := jsOrString figmaData.name "Design System"
    let frameCount : ℕ := 0
    let components ←
      match figmaData.document with
      | some doc => traverseFigmaNodes doc [] frameCount
      | none => .error documentAccessError
    let supported := (components.filter (fun c => c.supportStatus == "supported")).length
    let partialCount := (components.filter (fun c => c.supportStatus == "partial")).length
    let unsupported := (components.filter (fun c => c.supportStatus == "unsupported")).length
    .ok { fileKey := fileKey, fileName := fileName, components := components,
          stats := { totalComponents := components.length, frames := frameCount,
                     supported := supported, partialCount := partialCount,
                     unsupported := unsupported } }
  match inner with
  | .ok r => .ok r
  | .error e => .error ("Failed to analyze Figma components: " ++ e)

mutual

/-- The frame statistic as the specification defines it: the number of nodes
in the tree whose kind tag is FRAME or GROUP.  Stated from the spec's words,
for comparison with the `stats.frames` the code actually produces. -/
def specFrameGroupCount (node : FigmaNode) : ℕ :=
  (if node.fields.type == some "FRAME" || node.fields.type == some "GROUP" then 1 else 0) +
    match node with
    | .mk _ (some cs) => specFrameGroupCountList cs
    | .mk _ none => 0

/-- Sum of `specFrameGroupCount` over a list of nodes. -/
def specFrameGroupCountList : List FigmaNode → ℕ
  | [] => 0
  | c :: rest => specFrameGroupCount c + specFrameGroupCountList rest

end

/-- The lone component-instance node of the spec's numerical scenario (and of
the mock document): named `Primary Button`, `componentId: "button-primary"`,
a visible drop shadow, a solid `{r:0.2, g:0.4, b:0.9}` fill. -/
def primaryButtonNode : FigmaNode :=
  .mk { id := some "1:1", name := some "Primary Button", type := some "INSTANCE",
        componentId := some "button-primary",
        fills := some [{ color := some { r := 0.2, g := 0.4, b := 0.9 } }],
        effects := some [{ type := some "DROP_SHADOW", visible := some true }],
        absoluteBoundingBox := some { width := some 120, height := some 40 },
        strokes := some [], cornerRadius := some 4 } none

/-- Figma data whose document is just `primaryButtonNode`. -/
def primaryButtonData : FigmaData :=
  { id := some "file-1", name := some "Design System", document := some primaryButtonNode }

/-- A FRAME node with no candidate keyword in its name and no children. -/
def mainFrameNode : FigmaNode := .mk { name := some "Main Area", type := some "FRAME" } none

/-- Figma data whose document is a single FRAME node. -/
def mainFrameData : FigmaData := { document := some mainFrameNode }

/-- An instance whose external id is in the Button catalog but whose name
contains `input`. -/
def buttonIdInputNode : FigmaNode :=
  .mk { name := some "Search input", type := some "INSTANCE",
        componentId := some "button-primary" } none

/-- An instance named `Tab Button` with no external id. -/
def tabButtonNode : FigmaNode := .mk { name := some "Tab Button", type := some "INSTANCE" } none

/-- A GROUP node whose name contains the candidate keyword `card`. -/
def groupCardNode : FigmaNode := .mk { name := some "Card Group", type := some "GROUP" } none

/-- An instance named `Select Country` with no children. -/
def selectNode : FigmaNode := .mk { name := some "Select Country", type := some "INSTANCE" } none

/-- A Button-classified node with opacity exactly `0` and a saturated red
fill. -/
def opacityZeroButtonNode : FigmaNode :=
  .mk { name := some "OK Button", type := some "INSTANCE", opacity := some 0,
        fills := some [{ color := some { r := 1, g := 0, b := 0 } }] } none

/-- A Button-classified node with opacity `0.25`. -/
def dimButtonNode : FigmaNode :=
  .mk { name := some "Go Button", type := some "INSTANCE", opacity := some 0.25 } none

/-- A node lacking the mandatory `type` (kind) field. -/
def missingKindNode : FigmaNode := .mk { name := some "Mystery Widget" } none

/-- A CANVAS root whose only child lacks a kind tag. -/
def canvasRootNode : FigmaNode :=
  .mk { name := some "Page 1", type := some "CANVAS" } (some [missingKindNode])

/-- Figma data containing a node that lacks a kind tag. -/
def missingKindData : FigmaData := { document := some canvasRootNode }

/-- A FRAME node lacking the mandatory `name` field. -/
def missingNameFrameNode : FigmaNode := .mk { type := some "FRAME" } none

/-- Figma data whose document is a FRAME node without a name. -/
def missingNameData : FigmaData := { document := some missingNameFrameNode }

/-- A FRAME candidate named `Action Table`. -/
def actionTableFrameNode : FigmaNode :=
  .mk { name := some "Action Table", type := some "FRAME" } none

@[simp] theorem except_bind_ok {e a b : Type} (x : a) (f : a → Except e b) :
    (Except.ok x >>= f) = f x := rfl

@[simp] theorem except_bind_error {e a b : Type} (err : e) (f : a → Except e b) :
    ((Except.error err : Except e a) >>= f) = Except.error err := rfl

@[simp] theorem except_pure_eq {e a : Type} (x : a) : (pure x : Except e a) = Except.ok x := rfl

@[simp] theorem except_map_ok {e a b : Type} (f : a → b) (x : a) :
    (Except.ok x : Except e a).map f = Except.ok (f x) := rfl

@[simp] theorem except_map_error {e a b : Type} (f : a → b) (err : e) :
    (Except.error err : Except e a).map f = Except.error err := rfl

/-- A support status is one of the three values the status function can
produce. -/
def statusOK (c : FigmaComponent) : Prop :=
  c.supportStatus = "supported" ∨ c.supportStatus = "partial" ∨ c.supportStatus = "unsupported"

theorem traverseFigmaNodes_eq_some (f : NodeFields) (cs : List FigmaNode)
    (components : List FigmaComponent) (frameCount : ℕ) :
    traverseFigmaNodes (.mk f (some cs)) components frameCount = (do
      let isCand ← isComponentCandidate (.mk f (some cs))
      let comps ←
        if isCand then do
          let c ← buildComponent (.mk f (some cs))
          pure (components ++ [c])
        else
          pure components
      traverseNodeList cs comps
        (if f.type == some "FRAME" || f.type == some "GROUP" then frameCount + 1
         else frameCount)) := rfl

theorem traverseFigmaNodes_eq_none (f : NodeFields)
    (components : List FigmaComponent) (frameCount : ℕ) :
    traverseFigmaNodes (.mk f none) components frameCount = (do
      let isCand ← isComponentCandidate (.mk f none)
      let comps ←
        if isCand then do
          let c ← buildComponent (.mk f none)
          pure (components ++ [c])
        else
          pure components
      pure comps) := rfl

theorem traverseNodeList_eq_nil (components : List FigmaComponent) (frameCount : ℕ) :
    traverseNodeList [] components frameCount = pure components := rfl

theorem traverseNodeList_eq_cons (n : FigmaNode) (rest : List FigmaNode)
    (components : List FigmaComponent) (frameCount : ℕ) :
    traverseNodeList (n :: rest) components frameCount = (do
      let comps2 ← traverseFigmaNodes n components frameCount
      traverseNodeList rest comps2 frameCount) := rfl

theorem determineComponentSupportStatus_cases (t : String) :
    determineComponentSupportStatus t = "supported" ∨
    determineComponentSupportStatus t = "partial" ∨
    determineComponentSupportStatus t = "unsupported" := by
  unfold determineComponentSupportStatus
  split_ifs <;> simp

theorem buildComponent_statusOK {node : FigmaNode} {c : FigmaComponent}
    (h : buildComponent node = .ok c) : statusOK c := by
  unfold buildComponent at h
  cases hdet : detectComponentType node with
  | error err => simp [hdet] at h
  | ok t =>
    simp only [hdet, except_bind_ok] at h
    cases hprops : extractComponentProperties node t with
    | error err => simp [hprops] at h
    | ok ps =>
      simp only [hprops, except_bind_ok, Except.ok.injEq] at h
      have hss : c.supportStatus = determineComponentSupportStatus t := by rw [← h]
      rw [statusOK, hss]
      exact determineComponentSupportStatus_cases t

mutual

theorem traverseFigmaNodes_statusOK (node : FigmaNode) (comps : List FigmaComponent)
    (fc : ℕ) (res : List FigmaComponent)
    (h : traverseFigmaNodes node comps fc = .ok res)
    (hc : ∀ c ∈ comps, statusOK c) : ∀ c ∈ res, statusOK c := by
  match node with
  | .mk f ocs =>
    have hstep : ∀ comps2, (∀ c ∈ comps2, statusOK c) →
        (match ocs with
         | some cs => ∀ fc2, traverseNodeList cs comps2 fc2 = .ok res → ∀ c ∈ res, statusOK c
         | none => (pure comps2 : Except String (List FigmaComponent)) = .ok res →
             ∀ c ∈ res, statusOK c) := by
      intro comps2 hc2
      cases ocs with
      | some cs =>
        intro fc2 h2
        exact traverseNodeList_statusOK cs comps2 fc2 res h2 hc2
      | none =>
        intro h2
        simp only [except_pure_eq, Except.ok.injEq] at h2
        rw [← h2]; exact hc2
    cases ocs with
    | some cs =>
      rw [traverseFigmaNodes_eq_some] at h
      cases hcand : isComponentCandidate (.mk f (some cs)) with
      | error err => simp [hcand] at h
      | ok isCand =>
        simp only [hcand, except_bind_ok] at h
        cases isCand with
        | false =>
          simp only [Bool.false_eq_true, if_false, except_pure_eq, except_bind_ok] at h
          exact hstep comps hc _ h
        | true =>
          simp only [if_true] at h
          cases hb : buildComponent (.mk f (some cs)) with
          | error err => simp [hb] at h
          | ok c =>
            simp only [hb, except_bind_ok, except_pure_eq] at h
            refine hstep (comps ++ [c]) ?_ _ h
            intro x hx
            rcases List.mem_append.mp hx with hx | hx
            · exact hc x hx
            · rw [List.mem_singleton.mp hx]
              exact buildComponent_statusOK hb
    | none =>
      rw [traverseFigmaNodes_eq_none] at h
      cases hcand : isComponentCandidate (.mk f none) with
      | error err => simp [hcand] at h
      | ok isCand =>
        simp only [hcand, except_bind_ok] at h
        cases isCand with
        | false =>
          simp only [Bool.false_eq_true, if_false, except_pure_eq, except_bind_ok] at h
          exact hstep comps hc h
        | true =>
          simp only [if_true] at h
          cases hb : buildComponent (.mk f none) with
          | error err => simp [hb] at h
          | ok c =>
            simp only [hb, except_bind_ok, except_pure_eq] at h
            refine hstep (comps ++ [c]) ?_ h
            intro x hx
            rcases List.mem_append.mp hx with hx | hx
            · exact hc x hx
            · rw [List.mem_singleton.mp hx]
              exact buildComponent_statusOK hb

theorem traverseNodeList_statusOK (nodes : List FigmaNode) (comps : List FigmaComponent)
    (fc : ℕ) (res : List FigmaComponent)
    (h : traverseNodeList nodes comps fc = .ok res)
    (hc : ∀ c ∈ comps, statusOK c) : ∀ c ∈ res, statusOK c := by
  match nodes with
  | [] =>
    rw [traverseNodeList_eq_nil] at h
    simp only [except_pure_eq, Except.ok.injEq] at h
    rw [← h]; exact hc
  | n :: rest =>
    rw [traverseNodeList_eq_cons] at h
    cases h1 : traverseFigmaNodes n comps fc with
    | error err => simp [h1] at h
    | ok comps2 =>
      simp only [h1, except_bind_ok] at h
      exact traverseNodeList_statusOK rest comps2 fc res h
        (traverseFigmaNodes_statusOK n comps fc comps2 h1 hc)

end

theorem filter_three_sum (l : List FigmaComponent) (h : ∀ c ∈ l, statusOK c) :
    (l.filter (fun c => c.supportStatus == "supported")).length +
      (l.filter (fun c => c.supportStatus == "partial")).length +
      (l.filter (fun c => c.supportStatus == "unsupported")).length = l.length := by
  induction l with
  | nil => simp
  | cons x xs ih =>
    have hx := h x (List.mem_cons_self x xs)
    have hxs : ∀ c ∈ xs, statusOK c := fun c hc => h c (List.mem_cons_of_mem x hc)
    have hsum := ih hxs
    rcases hx with hx | hx | hx <;>
      simp only [List.filter_cons, hx,
        show (("supported" : String) == "supported") = true from rfl,
        show (("supported" : String) == "partial") = false from rfl,
        show (("supported" : String) == "unsupported") = false from rfl,
        show (("partial" : String) == "supported") = false from rfl,
        show (("partial" : String) == "partial") = true from rfl,
        show (("partial" : String) == "unsupported") = false from rfl,
        show (("unsupported" : String) == "supported") = false from rfl,
        show (("unsupported" : String) == "partial") = false from rfl,
        show (("unsupported" : String) == "unsupported") = true from rfl,
        Bool.false_eq_true, if_true, if_false, List.length_cons] <;>
      omega

theorem detectFromName_isSome_of_keyword (s : String)
    (h : containsComponentKeyword s = true) : (detectFromName s).isSome = true := by
  unfold detectFromName
  split_ifs with h1 h2 h3 h4 h5 h6 h7 h8 h9 <;> try rfl
  exfalso
  simp only [Bool.or_eq_true, not_or, Bool.not_eq_true] at h1 h2 h3 h4 h5 h6 h8 h9
  have htable : jsIncludes s "table" = false := h8.1
  have htab : jsIncludes s "tab" = false := by
    cases hcase : jsIncludes s "tab" with
    | false => rfl
    | true =>
      exfalso
      apply h7
      rw [hcase, htable]
      rfl
  simp [containsComponentKeyword, h1, h2.1.1, h2.1.2, h3, h4.2, h5.1.1, h6.1, h8.1,
    htab, h9.1] at h
/-- C1 (code bug): the source intends `stats.frames` to count FRAME/GROUP
nodes (`// Count frames`, `frameCount++`), but `frameCount` is a number
passed by value into `traverseFigmaNodes`, so the increments never reach
`analyzeFigmaComponents` and the reported statistic is always `0`: on a tree
consisting of one FRAME node the analysis reports `frames = 0` while the tree
contains one frame-or-group node. -/
theorem C1_frames_stat_always_zero :
    (analyzeFigmaComponents mainFrameData).map (fun r => r.stats.frames) = .ok 0 ∧
    specFrameGroupCount mainFrameNode = 1 :=
  ⟨rfl, rfl⟩

/-- C2: whenever `analyzeFigmaComponents` succeeds, `stats.totalComponents`
equals the length of `components`, and the supported, partial and unsupported
counts add up to it. -/
theorem C2_stats_totals_consistent :
    ∀ (d : FigmaData) (r : FigmaFileResponse), analyzeFigmaComponents d = .ok r →
      r.stats.totalComponents = r.components.length ∧
      r.stats.supported + r.stats.partialCount + r.stats.unsupported =
        r.stats.totalComponents := by
  intro d r h
  unfold analyzeFigmaComponents at h
  cases hdoc : d.document with
  | none => rw [hdoc] at h; simp at h
  | some doc =>
    rw [hdoc] at h
    dsimp only [] at h
    cases htr : traverseFigmaNodes doc [] 0 with
    | error err => rw [htr] at h; simp at h
    | ok comps =>
      rw [htr] at h
      simp only [except_bind_ok, Except.ok.injEq] at h
      subst h
      refine ⟨rfl, ?_⟩
      have hstat := traverseFigmaNodes_statusOK doc [] 0 comps htr
        (by intro c hc; exact absurd hc (List.not_mem_nil c))
      exact filter_three_sum comps hstat

/-- Witness for C2: the conclusion instantiated at a concrete analysis run. -/
theorem C2_stats_totals_consistent_witness :
    ((⟨"figma-file-1", "Design System", [], ⟨0, 0, 0, 0, 0⟩⟩ :
        FigmaFileResponse).stats.totalComponents =
      (⟨"figma-file-1", "Design System", [], ⟨0, 0, 0, 0, 0⟩⟩ :
        FigmaFileResponse).components.length) ∧
    ((⟨"figma-file-1", "Design System", [], ⟨0, 0, 0, 0, 0⟩⟩ :
        FigmaFileResponse).stats.supported +
      (⟨"figma-file-1", "Design System", [], ⟨0, 0, 0, 0, 0⟩⟩ :
        FigmaFileResponse).stats.partialCount +
      (⟨"figma-file-1", "Design System", [], ⟨0, 0, 0, 0, 0⟩⟩ :
        FigmaFileResponse).stats.unsupported =
      (⟨"figma-file-1", "Design System", [], ⟨0, 0, 0, 0, 0⟩⟩ :
        FigmaFileResponse).stats.totalComponents) :=
  C2_stats_totals_consistent missingKindData
    ⟨"figma-file-1", "Design System", [], ⟨0, 0, 0, 0, 0⟩⟩ rfl

/-- C3: type resolution applies the rules in the source's precedence order:
a successful componentId catalog lookup decides the type before any name
rule, and when the id decides nothing the name-pattern chain (in its listed
order) decides; in particular a node with a Button-catalog id named
`Search input` classifies as Button, and a node named `Tab Button`
classifies as Button. -/
theorem C3_type_resolution_precedence :
    (∀ (n : FigmaNode) (nm t : String), n.fields.name = some nm →
        detectFromId n = some t → detectComponentType n = .ok t) ∧
    (∀ (n : FigmaNode) (nm t : String), n.fields.name = some nm →
        detectFromId n = none → detectFromName (toLowerCase nm) = some t →
        detectComponentType n = .ok t) ∧
    detectComponentType buttonIdInputNode = .ok "Button" ∧
    detectComponentType tabButtonNode = .ok "Button" := by
  refine ⟨?_, ?_, rfl, rfl⟩
  · intro n nm t hnm hid
    simp only [detectComponentType, hnm, hid]
  · intro n nm t hnm hid hname
    simp only [detectComponentType, hnm, hid, hname]

/-- Witness for C3: the id-precedence conjunct applied to the concrete
Button-catalog node whose name contains `input`. -/
theorem C3_type_resolution_precedence_witness :
    detectComponentType buttonIdInputNode = .ok "Button" :=
  C3_type_resolution_precedence.1 buttonIdInputNode "Search input" "Button" rfl rfl

/-- C4 counterexample: a GROUP node whose lowercased name contains the
candidate keyword `card` is NOT a candidate (`isComponentCandidate` only
accepts FRAME kinds in its keyword branch), contradicting the claim that
frame-or-group kinds with a keyword are candidates. -/
theorem C4_group_candidate_counterexample :
    groupCardNode.fields.type = some "GROUP" ∧
    containsComponentKeyword (toLowerCase "Card Group") = true ∧
    isComponentCandidate groupCardNode = .ok false :=
  ⟨rfl, rfl, rfl⟩

/-- C4 (amended): a node with a name is a candidate iff its kind is
COMPONENT or INSTANCE, or its kind is FRAME (only - GROUP kinds are never
candidates) and its lowercased name contains one of the ten keywords. -/
theorem C4_candidate_rule_amended :
    ∀ (n : FigmaNode) (nm : String), n.fields.name = some nm →
      (isComponentCandidate n = .ok true ↔
        (n.fields.type = some "COMPONENT" ∨ n.fields.type = some "INSTANCE" ∨
         (n.fields.type = some "FRAME" ∧
           containsComponentKeyword (toLowerCase nm) = true))) := by
  intro n nm hnm
  unfold isComponentCandidate
  rw [hnm]
  split_ifs with h1 h2
  · simp only [Bool.or_eq_true, beq_iff_eq] at h1
    constructor
    · intro _; tauto
    · intro _; rfl
  · simp only [Bool.or_eq_true, beq_iff_eq, not_or] at h1
    rw [beq_iff_eq] at h2
    simp only [Except.ok.injEq]
    constructor
    · intro hkw; exact Or.inr (Or.inr ⟨h2, hkw⟩)
    · intro hr
      rcases hr with hr | hr | hr
      · exact absurd hr h1.1
      · exact absurd hr h1.2
      · exact hr.2
  · simp only [Bool.or_eq_true, beq_iff_eq, not_or] at h1
    rw [beq_iff_eq] at h2
    constructor
    · intro hfalse; simp at hfalse
    · intro hr
      rcases hr with hr | hr | hr
      · exact absurd hr h1.1
      · exact absurd hr h1.2
      · exact absurd hr.1 h2

/-- Witness for C4 (amended): the amended rule applied to a concrete FRAME
node containing the keyword `table`. -/
theorem C4_candidate_rule_amended_witness :
    isComponentCandidate actionTableFrameNode = .ok true :=
  (C4_candidate_rule_amended actionTableFrameNode "Action Table" rfl).mpr
    (Or.inr (Or.inr ⟨rfl, rfl⟩))

/-- C5 counterexample: for a Select node whose option extraction yields no
result, the `options` key is PRESENT in the property bag with value `null`
(the source assigns `properties.options = extractSelectOptions(node)`
unconditionally), contradicting the claim that the key is absent. -/
theorem C5_select_options_null_counterexample :
    detectComponentType selectNode = .ok "Select" ∧
    extractSelectOptions selectNode = .ok none ∧
    extractComponentProperties selectNode "Select" =
      .ok [("label", .vStr "Select an option"), ("appearance", .vStr "standard"),
           ("options", .vNull)] ∧
    (extractComponentProperties selectNode "Select").map
      (fun ps => ps.lookup "options") = .ok (some JsValue.vNull) :=
  ⟨rfl, rfl, rfl, rfl⟩

/-- C5 (amended): whenever Select property extraction succeeds and the
option extraction found nothing, the `options` key is present in the bag
with the null value (not absent). -/
theorem C5_select_options_key_present_with_null :
    ∀ (n : FigmaNode) (ps : List (String × JsValue)),
      extractComponentProperties n "Select" = .ok ps →
      extractSelectOptions n = .ok none →
      ps.lookup "options" = some JsValue.vNull := by
  intro n ps h hopt
  unfold extractComponentProperties at h
  simp only [show (("Select" : String) == "Button") = false from rfl,
    show (("Select" : String) == "Input") = false from rfl,
    show (("Select" : String) == "Card") = false from rfl,
    show (("Select" : String) == "DatePicker") = false from rfl,
    show (("Select" : String) == "Select") = true from rfl,
    Bool.false_eq_true, if_false, if_true] at h
  cases hl : extractTextContent n "label" with
  | error e => rw [hl] at h; simp at h
  | ok lab =>
    rw [hl] at h
    simp only [except_bind_ok] at h
    cases ha : determineInputAppearance n with
    | error e => rw [ha] at h; simp at h
    | ok app =>
      rw [ha] at h
      simp only [except_bind_ok] at h
      rw [hopt] at h
      simp only [except_bind_ok, Except.ok.injEq] at h
      rw [← h]
      rfl

/-- Witness for C5 (amended): the amended statement applied to the concrete
childless Select node. -/
theorem C5_select_options_key_present_with_null_witness :
    List.lookup "options"
      [("label", JsValue.vStr "Select an option"),
       ("appearance", JsValue.vStr "standard"),
       ("options", JsValue.vNull)] = some JsValue.vNull :=
  C5_select_options_key_present_with_null selectNode
    [("label", .vStr "Select an option"), ("appearance", .vStr "standard"),
     ("options", .vNull)] rfl rfl

/-- C6 counterexample: a node classified as Button with opacity exactly `0`
is NOT reported disabled (the JS guard `node.opacity && node.opacity < 0.5`
is skipped because `0` is falsy), although `0 < 0.5`, contradicting the
claimed disjunction. -/
theorem C6_opacity_zero_counterexample :
    detectComponentType opacityZeroButtonNode = .ok "Button" ∧
    opacityZeroButtonNode.fields.opacity = some 0 ∧
    ((0 : ℚ) < 0.5) ∧
    isNodeDisabled opacityZeroButtonNode = .ok false ∧
    (extractComponentProperties opacityZeroButtonNode "Button").map
      (fun ps => ps.lookup "disabled") = .ok (some (JsValue.vBool false)) :=
  ⟨rfl, rfl, by decide, rfl, rfl⟩

/-- C6 (amended): for a node with a name, `isNodeDisabled` returns true iff
the lowercased name contains `disabled`, or the opacity field is present,
nonzero (truthy) and below `0.5`, or the first fill with `visible !== false`
has a color whose saturation is below `0.1`. -/
theorem C6_disabled_rule_amended :
    ∀ (n : FigmaNode) (nm : String), n.fields.name = some nm →
      (isNodeDisabled n = .ok true ↔
        (jsIncludes (toLowerCase nm) "disabled" = true ∨
         (∃ o, n.fields.opacity = some o ∧ o ≠ 0 ∧ o < (0.5 : ℚ)) ∨
         (∃ fills fill c, n.fields.fills = some fills ∧
            fills.find? (fun f => !(f.visible == some false)) = some fill ∧
            fill.color = some c ∧ saturationOf c < (0.1 : ℚ)))) := by
  intro n nm hnm
  simp only [isNodeDisabled, hnm]
  split_ifs with h1 h2
  · constructor
    · intro _; exact Or.inl h1
    · intro _; rfl
  · constructor
    · intro _
      refine Or.inr (Or.inl ?_)
      cases ho : n.fields.opacity with
      | none => rw [ho] at h2; simp at h2
      | some o =>
        rw [ho] at h2
        simp only [Bool.and_eq_true, decide_eq_true_eq] at h2
        exact ⟨o, rfl, h2.1, h2.2⟩
    · intro _; rfl
  · have hname : jsIncludes (toLowerCase nm) "disabled" = false := by
      cases hcase : jsIncludes (toLowerCase nm) "disabled" with
      | false => rfl
      | true => exact absurd hcase h1
    have hop : ¬ (∃ o, n.fields.opacity = some o ∧ o ≠ 0 ∧ o < (0.5 : ℚ)) := by
      rintro ⟨o, ho, hne, hlt⟩
      apply h2
      rw [ho]
      simp [hne, hlt]
    cases hf : n.fields.fills with
    | none =>
      simp only [hf]
      constructor
      · intro hfalse; simp at hfalse
      · rintro (hr | hr | ⟨fills2, fill, c, hfills2, hfind2, hcol2, hsat2⟩)
        · rw [hname] at hr; simp at hr
        · exact absurd hr hop
        · simp at hfills2
    | some fills =>
      simp only [hf]
      by_cases hlen : fills.length > 0
      · rw [if_pos hlen]
        cases hfind : fills.find? (fun f => !(f.visible == some false)) with
        | none =>
          simp only [hfind]
          constructor
          · intro hfalse; simp at hfalse
          · rintro (hr | hr | ⟨fills2, fill, c, hfills2, hfind2, hcol2, hsat2⟩)
            · rw [hname] at hr; simp at hr
            · exact absurd hr hop
            · simp only [Option.some.injEq] at hfills2
              subst hfills2
              rw [hfind] at hfind2
              simp at hfind2
        | some fill =>
          simp only [hfind]
          cases hcol : fill.color with
          | none =>
            simp only [hcol]
            constructor
            · intro hfalse; simp at hfalse
            · rintro (hr | hr | ⟨fills2, fill2, c2, hfills2, hfind2, hcol2, hsat2⟩)
              · rw [hname] at hr; simp at hr
              · exact absurd hr hop
              · simp only [Option.some.injEq] at hfills2
                subst hfills2
                rw [hfind] at hfind2
                simp only [Option.some.injEq] at hfind2
                subst hfind2
                rw [hcol] at hcol2
                simp at hcol2
          | some c =>
            simp only [hcol]
            constructor
            · intro hsat
              simp only [Except.ok.injEq, decide_eq_true_eq] at hsat
              exact Or.inr (Or.inr ⟨fills, fill, c, rfl, hfind, hcol, hsat⟩)
            · rintro (hr | hr | ⟨fills2, fill2, c2, hfills2, hfind2, hcol2, hsat2⟩)
              · rw [hname] at hr; simp at hr
              · exact absurd hr hop
              · simp only [Option.some.injEq] at hfills2
                subst hfills2
                rw [hfind] at hfind2
                simp only [Option.some.injEq] at hfind2
                subst hfind2
                rw [hcol] at hcol2
                simp only [Option.some.injEq] at hcol2
                subst hcol2
                simp [hsat2]
      · rw [if_neg hlen]
        constructor
        · intro hfalse; simp at hfalse
        · rintro (hr | hr | ⟨fills2, fill, c, hfills2, hfind2, hcol2, hsat2⟩)
          · rw [hname] at hr; simp at hr
          · exact absurd hr hop
          · simp only [Option.some.injEq] at hfills2
            subst hfills2
            have hnil : fills = [] := List.length_eq_zero.mp (by omega)
            rw [hnil] at hfind2
            simp at hfind2

/-- Witness for C6 (amended): the amended rule applied to a Button node with
opacity `0.25`, which is reported disabled. -/
theorem C6_disabled_rule_amended_witness :
    isNodeDisabled dimButtonNode = .ok true :=
  (C6_disabled_rule_amended dimButtonNode "Go Button" rfl).mpr
    (Or.inr (Or.inl ⟨0.25, rfl, by decide, by decide⟩))

/-- C7: the support status is a pure total function of the widget type:
Button/Input/Card/Checkbox/Radio are supported, Select/DatePicker/Tabs/Table
are partial, and every other string - Custom and Carousel included - is
unsupported. -/
theorem C7_support_status_pure_mapping :
    (determineComponentSupportStatus "Button" = "supported" ∧
     determineComponentSupportStatus "Input" = "supported" ∧
     determineComponentSupportStatus "Card" = "supported" ∧
     determineComponentSupportStatus "Checkbox" = "supported" ∧
     determineComponentSupportStatus "Radio" = "supported") ∧
    (determineComponentSupportStatus "Select" = "partial" ∧
     determineComponentSupportStatus "DatePicker" = "partial" ∧
     determineComponentSupportStatus "Tabs" = "partial" ∧
     determineComponentSupportStatus "Table" = "partial") ∧
    (∀ t : String, t ∉ ["Button", "Input", "Card", "Checkbox", "Radio",
        "Select", "DatePicker", "Tabs", "Table"] →
      determineComponentSupportStatus t = "unsupported") := by
  refine ⟨⟨rfl, rfl, rfl, rfl, rfl⟩, ⟨rfl, rfl, rfl, rfl⟩, ?_⟩
  intro t ht
  unfold determineComponentSupportStatus
  split_ifs with hf hp
  · exfalso
    simp only [fullySupportedTypes, List.contains, List.elem_eq_mem,
      decide_eq_true_eq] at hf
    apply ht
    simp only [List.mem_cons, List.not_mem_nil, or_false] at hf ⊢
    tauto
  · exfalso
    simp only [partiallySupportedTypes, List.contains, List.elem_eq_mem,
      decide_eq_true_eq] at hp
    apply ht
    simp only [List.mem_cons, List.not_mem_nil, or_false] at hp ⊢
    tauto
  · rfl

/-- Witness for C7: the everything-else conjunct applied to `Carousel`. -/
theorem C7_support_status_pure_mapping_witness :
    determineComponentSupportStatus "Carousel" = "unsupported" :=
  C7_support_status_pure_mapping.2.2 "Carousel" (by decide)

/-- C8 counterexample: an input tree containing a node that lacks the
mandatory kind tag is analysed successfully - the malformed node is silently
skipped (it is no candidate and produces no error), contradicting the claim
that the analysis fails as a whole. -/
theorem C8_missing_kind_silently_skipped :
    missingKindNode.fields.type = none ∧
    analyzeFigmaComponents missingKindData =
      .ok { fileKey := "figma-file-1", fileName := "Design System", components := [],
            stats := ⟨0, 0, 0, 0, 0⟩ } :=
  ⟨rfl, rfl⟩

/-- C8 (amended): a node lacking a kind tag is never a candidate and is
silently skipped without failing the analysis, while a FRAME node lacking a
name makes the whole analysis fail with the wrapped TypeError message. -/
theorem C8_malformed_input_amended :
    (∀ n : FigmaNode, n.fields.type = none → isComponentCandidate n = .ok false) ∧
    analyzeFigmaComponents missingNameData =
      .error ("Failed to analyze Figma components: " ++ nameAccessError) := by
  refine ⟨?_, rfl⟩
  intro n h
  unfold isComponentCandidate
  rw [h]
  rfl

/-- Witness for C8 (amended): the skip conjunct applied to the concrete node
without a kind tag. -/
theorem C8_malformed_input_amended_witness :
    isComponentCandidate missingKindNode = .ok false :=
  C8_malformed_input_amended.1 missingKindNode rfl

/-- C9: on the spec's numerical scenario (lone `Primary Button` instance with
`componentId: "button-primary"`, visible drop shadow, solid
`{r:0.2, g:0.4, b:0.9}` fill) the analysis yields a Button with supported
status, variant `raised`, color `primary` and background color
`{r:51, g:102, b:230}`; the unit-to-255 conversion rounds half up
(`0.9 * 255 = 229.5` rounds to `230`). -/
theorem C9_primary_button_scenario :
    (analyzeFigmaComponents primaryButtonData).map (fun r =>
      r.components.map (fun c =>
        (c.type, c.supportStatus, c.properties.lookup "variant",
         c.properties.lookup "color", c.styles.backgroundColor))) =
      .ok [("Button", "supported", some (JsValue.vStr "raised"),
            some (JsValue.vStr "primary"), some ⟨51, 102, 230⟩)] ∧
    mathRound ((0.9 : ℚ) * 255) = 230 :=
  ⟨rfl, by decide⟩

/-- C10: for a FRAME node that is a candidate, the detected component type is
always decided by the componentId catalog or by the name-pattern chain - the
structural fallbacks (`hasButtonLikeStructure` etc.) never decide a FRAME
candidate's type, because every candidate keyword also matches a name
pattern. -/
theorem C10_structural_fallback_unreachable_for_frames :
    ∀ (n : FigmaNode) (nm t : String), n.fields.type = some "FRAME" →
      n.fields.name = some nm → isComponentCandidate n = .ok true →
      detectComponentType n = .ok t →
      detectFromId n = some t ∨ detectFromName (toLowerCase nm) = some t := by
  intro n nm t htype hnm hcand hdet
  have hkw : containsComponentKeyword (toLowerCase nm) = true := by
    unfold isComponentCandidate at hcand
    rw [htype, hnm] at hcand
    simp at hcand
    exact hcand
  have hsome := detectFromName_isSome_of_keyword _ hkw
  cases hid : detectFromId n with
  | some u =>
    left
    simp only [detectComponentType, hnm, hid, Except.ok.injEq] at hdet
    rw [hdet]
  | none =>
    right
    cases hname : detectFromName (toLowerCase nm) with
    | none => rw [hname] at hsome; simp at hsome
    | some u =>
      simp only [detectComponentType, hnm, hid, hname, Except.ok.injEq] at hdet
      rw [hdet]

/-- Witness for C10: the statement applied to the concrete FRAME candidate
`Action Table`, whose type `Table` is decided by the name chain. -/
theorem C10_structural_fallback_unreachable_for_frames_witness :
    detectFromId actionTableFrameNode = some "Table" ∨
    detectFromName (toLowerCase "Action Table") = some "Table" :=
  C10_structural_fallback_unreachable_for_frames actionTableFrameNode
    "Action Table" "Table" rfl rfl rfl rfl
